import Mathlib

/-!
Shallow embedding of the AMS operation coordinator of
`frontend/src/components/control/AMSSectionDual.tsx` (the `useAmsOperations`
hook, the topology scan helpers `getExtruderIdForTray` / `getLoadedTrayInfo`,
and the `showFilamentChangeCard` debounce effect of `AMSSectionDual`).

Modelling conventions:
* JS `number` timestamps and ids are `Nat` (all values involved are
  non-negative integers: `Date.now()` milliseconds, tray ids, status codes).
* React `useState` / `useRef` cells of the hook are gathered into a single
  `Coordinator` record; each `useEffect` body and each callback becomes a
  function from `Coordinator` (plus its inputs) to `Coordinator`.
* `JSON.stringify({tag_uid, tray_uuid, tray_type, tray_color})` is modelled
  by the 4-field record `TraySig` itself: for records of this fixed shape the
  JSON string is determined by, and determines, the four field values, so
  string equality coincides with `TraySig` equality.  The sentinel `''`
  (ref never written, or cleared by `reset`) is modelled as `none`.
* JS truthiness tests are modelled explicitly: `if (tray)` on a possibly
  `undefined` value is an `Option` match; `!context?.loadTargetTrayId` is
  falsy when the context is `null`, the field is `undefined`, OR the field
  is the number `0`.
* `setTimeout(... , ms)` is modelled by storing `some ms` in a `timer` field
  (`clearTimeout` stores `none`); the timeout callback bodies are embedded
  as their own functions.
-/

namespace AmsCoordinator

/-- `OperationState` of the hook: `'IDLE' | 'REFRESHING' | 'LOADING' | 'UNLOADING'`. -/
inductive OperationState where
  | IDLE
  | REFRESHING
  | LOADING
  | UNLOADING
deriving DecidableEq, Repr

/-- `RefreshTarget` interface: which slot is being refreshed. -/
structure RefreshTarget where
  amsId : Nat
  trayId : Nat
deriving DecidableEq, Repr

/-- `OperationContext` interface: optional `refreshTarget`, optional
`loadTargetTrayId`, and the `startTime` timestamp. -/
structure OperationContext where
  refreshTarget : Option RefreshTarget := none
  loadTargetTrayId : Option Nat := none
  startTime : Nat
deriving DecidableEq, Repr

/-- The value stored in `lastOperationType` (`'load' | 'unload'`; `null` is
`Option.none` around it). -/
inductive LastOpType where
  | load
  | unload
deriving DecidableEq, Repr

/-- The identification-signature fields captured by
`JSON.stringify({tag_uid, tray_uuid, tray_type, tray_color})`.
Absent (`undefined`) fields are `none`. -/
structure TraySig where
  tag_uid : Option String
  tray_uuid : Option String
  tray_type : Option String
  tray_color : Option String
deriving DecidableEq, Repr

/-- One element of `unit.tray`: the slot data used by the coordinator. -/
structure AMSTray where
  id : Nat
  tag_uid : Option String := none
  tray_uuid : Option String := none
  tray_type : Option String := none
  tray_color : Option String := none
deriving DecidableEq, Repr

/-- One element of `amsUnits` (`AMSUnit` from the api client, restricted to
the fields the embedded code reads). -/
structure AMSUnit where
  id : Nat
  tray : List AMSTray
deriving DecidableEq, Repr

/-- The signature of a tray, as captured by both `startRefresh` and the
refresh-completion effect. -/
def traySig (t : AMSTray) : TraySig :=
  ⟨t.tag_uid, t.tray_uuid, t.tray_type, t.tray_color⟩

/-- `amsUnits.find(u => u.id === amsId)` . -/
def findUnit (amsUnits : List AMSUnit) (amsId : Nat) : Option AMSUnit :=
  amsUnits.find? (fun u => u.id = amsId)

/-- `unit?.tray?.find(t => t.id === trayId)`. -/
def findTray (unit : Option AMSUnit) (trayId : Nat) : Option AMSTray :=
  match unit with
  | none => none
  | some u => u.tray.find? (fun t => t.id = trayId)

/-- The telemetry-derived inputs of `useAmsOperations` that the embedded
effects read (`amsUnits`, `amsStatusMain`, `trayNow`, `lastAmsUpdate`). -/
structure TelemetryEnv where
  amsUnits : List AMSUnit
  amsStatusMain : Nat
  trayNow : Nat
  lastAmsUpdate : Nat
deriving DecidableEq, Repr

/-- All mutable cells of one `useAmsOperations` instance:
`state`, `context`, `lastOperationType` (React state),
`prevAmsStatusMainRef`, `refreshInitialDataRef` (`none` models `''`),
`refreshInitialAmsUpdateRef`, and `timeoutRef` (`some d` = a pending
`setTimeout` of `d` ms, `none` = cleared). -/
structure Coordinator where
  state : OperationState
  context : Option OperationContext
  lastOperationType : Option LastOpType
  prevAmsStatusMain : Nat
  refreshInitialData : Option TraySig
  refreshInitialAmsUpdate : Nat
  timer : Option Nat
deriving DecidableEq, Repr

/-- `REFRESH_TIMEOUT_MS = 15000`. -/
def REFRESH_TIMEOUT_MS : Nat := 15000

/-- `FILAMENT_CHANGE_TIMEOUT_MS = 120000`. -/
def FILAMENT_CHANGE_TIMEOUT_MS : Nat := 120000

/-- `reset`: clear the pending timeout, set state `'IDLE'`, context `null`,
`refreshInitialDataRef.current = ''`, `refreshInitialAmsUpdateRef.current = 0`.
It does not touch `lastOperationType` or `prevAmsStatusMainRef`. -/
def reset (c : Coordinator) : Coordinator :=
  { c with
    timer := none
    state := .IDLE
    context := none
    refreshInitialData := none
    refreshInitialAmsUpdate := 0 }

/-- The body of every operation-timeout `setTimeout` callback: it logs and
calls `reset`. -/
def onOperationTimeout (c : Coordinator) : Coordinator :=
  reset c

/-- A command handed to the external command sink (the api client). -/
inductive Command where
  | refresh (amsId trayId : Nat)
  | load (trayId : Nat) (extruderId : Option Nat)
  | unload
deriving DecidableEq, Repr

/-- Result of a `start*` call, as observed by the caller. -/
inductive RequestResult where
  | accepted
  | operationInProgress
deriving DecidableEq, Repr

/-- What one `start*` call produces: the new hook state, whether the request
was accepted, and the command dispatched via the mutation (if any). -/
structure StartOutcome where
  coord : Coordinator
  result : RequestResult
  dispatched : Option Command
deriving DecidableEq, Repr

/-- `startRefresh(amsId, trayId)` evaluated with the current telemetry
inputs `env` and `Date.now() = now`.  Guard: rejected unless state is
`'IDLE'`.  On acceptance it captures the target tray's signature (only if
the tray is found), captures `lastAmsUpdate`, transitions to `'REFRESHING'`
with a fresh context, arms the 15000 ms timeout, and dispatches the refresh
command. -/
def startRefresh (c : Coordinator) (amsId trayId : Nat)
    (env : TelemetryEnv) (now : Nat) : StartOutcome :=
  if c.state ≠ .IDLE then
    ⟨c, .operationInProgress, none⟩
  else
    let initData :=
      match findTray (findUnit env.amsUnits amsId) trayId with
      | some t => some (traySig t)
      | none => c.refreshInitialData
    ⟨{ c with
        refreshInitialData := initData
        refreshInitialAmsUpdate := env.lastAmsUpdate
        state := .REFRESHING
        context := some { refreshTarget := some ⟨amsId, trayId⟩, startTime := now }
        timer := some REFRESH_TIMEOUT_MS },
      .accepted,
      some (.refresh amsId trayId)⟩

/-- `startLoad(trayId, extruderId?)`.  Guard: rejected unless `'IDLE'`.
On acceptance: state `'LOADING'`, context with `loadTargetTrayId`,
`lastOperationType = 'load'`, 120000 ms timeout, load command dispatched. -/
def startLoad (c : Coordinator) (trayId : Nat) (extruderId : Option Nat)
    (now : Nat) : StartOutcome :=
  if c.state ≠ .IDLE then
    ⟨c, .operationInProgress, none⟩
  else
    ⟨{ c with
        state := .LOADING
        context := some { loadTargetTrayId := some trayId, startTime := now }
        lastOperationType := some .load
        timer := some FILAMENT_CHANGE_TIMEOUT_MS },
      .accepted,
      some (.load trayId extruderId)⟩

/-- `startUnload()`.  Guard: rejected unless `'IDLE'`.  On acceptance:
state `'UNLOADING'`, context with only `startTime`,
`lastOperationType = 'unload'`, 120000 ms timeout, unload command. -/
def startUnload (c : Coordinator) (now : Nat) : StartOutcome :=
  if c.state ≠ .IDLE then
    ⟨c, .operationInProgress, none⟩
  else
    ⟨{ c with
        state := .UNLOADING
        context := some { startTime := now }
        lastOperationType := some .unload
        timer := some FILAMENT_CHANGE_TIMEOUT_MS },
      .accepted,
      some .unload⟩

/-- The REFRESH-completion `useEffect` body, evaluated with telemetry `env`
at time `now`.  Early-outs: state not `'REFRESHING'`, no `refreshTarget`,
or target tray not found.  `dataChanged` requires a non-empty captured
signature (`refreshInitialDataRef.current &&` — the empty string is falsy)
that differs from the current one; `amsUpdateChanged` is plain inequality.
Fast path completes (`reset`) when `dataChanged && elapsed > 1000`; slow
path when `amsUpdateChanged && elapsed > 8000`. -/
def stepRefreshCheck (c : Coordinator) (env : TelemetryEnv) (now : Nat) :
    Coordinator :=
  match c.state, c.context with
  | .REFRESHING, some ctx =>
    match ctx.refreshTarget with
    | none => c
    | some tgt =>
      let elapsed := now - ctx.startTime
      match findTray (findUnit env.amsUnits tgt.amsId) tgt.trayId with
      | none => c
      | some tray =>
        let currentData := traySig tray
        let dataChanged :=
          c.refreshInitialData.isSome ∧ c.refreshInitialData ≠ some currentData
        let amsUpdateChanged := env.lastAmsUpdate ≠ c.refreshInitialAmsUpdate
        if dataChanged ∧ elapsed > 1000 then reset c
        else if amsUpdateChanged ∧ elapsed > 8000 then reset c
        else c
  | _, _ => c

/-- The LOAD/UNLOAD primary-completion `useEffect` body for one observed
`amsStatusMain` value.  Outside `'LOADING'`/`'UNLOADING'` it only records the
value into `prevAmsStatusMainRef`; inside, it completes (`reset`) when the
previously recorded value was `1` and the current one is `0`, and in every
case records the current value. -/
def stepEdge (c : Coordinator) (amsStatusMain : Nat) : Coordinator :=
  if c.state = .LOADING ∨ c.state = .UNLOADING then
    let wasActive := c.prevAmsStatusMain = 1
    let isNowIdle := amsStatusMain = 0
    let c' := if wasActive ∧ isNowIdle then reset c else c
    { c' with prevAmsStatusMain := amsStatusMain }
  else
    { c with prevAmsStatusMain := amsStatusMain }

/-- `stepEdge` folded over a sequence of observed `amsStatusMain` values
(one effect evaluation per observation, oldest first). -/
def runEdgeObs (c : Coordinator) : List Nat → Coordinator
  | [] => c
  | x :: xs => runEdgeObs (stepEdge c x) xs

/-- The `loadTargetTrayId` value as seen through the JS guard
`!context?.loadTargetTrayId`: `none` when the context is `null`, the field
is `undefined`, or the field is `0` (the number 0 is falsy in JS). -/
def loadTargetTruthy : Option OperationContext → Option Nat
  | none => none
  | some ctx =>
    match ctx.loadTargetTrayId with
    | none => none
    | some t => if t = 0 then none else some t

/-- `context?.startTime ? Date.now() - context.startTime : 0` — the whole
optional chain is tested for truthiness, so both a missing context and a
`startTime` equal to the falsy number `0` yield elapsed `0`. -/
def elapsedTruthy (octx : Option OperationContext) (now : Nat) : Nat :=
  match octx with
  | none => 0
  | some ctx => if ctx.startTime = 0 then 0 else now - ctx.startTime

/-- The LOAD secondary-completion `useEffect` body: requires state
`'LOADING'` and a truthy `loadTargetTrayId`; completes (`reset`) when
`trayNow` equals the target and more than 5000 ms have elapsed, where
elapsed is the truthiness-guarded `context?.startTime ? now - startTime : 0`. -/
def stepLoadTrayNow (c : Coordinator) (trayNow now : Nat) : Coordinator :=
  if c.state ≠ .LOADING then c
  else
    match loadTargetTruthy c.context with
    | none => c
    | some target =>
      let elapsed := elapsedTruthy c.context now
      if trayNow = target ∧ elapsed > 5000 then reset c else c

/-- The UNLOAD secondary-completion `useEffect` body: requires state
`'UNLOADING'`; completes (`reset`) when `trayNow = 255` and more than
1000 ms have elapsed, where elapsed is the truthiness-guarded
`context?.startTime ? now - startTime : 0`. -/
def stepUnloadTrayNow (c : Coordinator) (trayNow now : Nat) : Coordinator :=
  if c.state ≠ .UNLOADING then c
  else
    let elapsed := elapsedTruthy c.context now
    if trayNow = 255 ∧ elapsed > 1000 then reset c else c

/-! ### Mutation result handlers

`useMutation` settles each api call either through `onSuccess(data)` (the
HTTP call returned a body `{success, message?}` with no transport error) or
through `onError(error)` (transport-level failure).  On the `onError` path
react-query additionally stores the error, which the hook exposes as
`loadError` / `unloadError` / `refreshError`; we model that stored error as
the `exposedError` component. -/

/-- An api response body as the mutations see it. -/
structure ApiResponse where
  success : Bool
  message : Option String
deriving DecidableEq, Repr

/-- A toast emitted through `onToast`. -/
inductive ToastKind where
  | success
  | error
deriving DecidableEq, Repr

/-- What settling one mutation produces: the new hook state, the toasts
emitted, and whether a mutation error is now exposed to the UI. -/
structure HandlerOutcome where
  coord : Coordinator
  toasts : List (String × ToastKind)
  exposedError : Bool
deriving DecidableEq, Repr

/-- `data.message || fallback` (JS `||`: `undefined` and `''` both fall
through to the fallback). -/
def messageOr (m : Option String) (fallback : String) : String :=
  match m with
  | none => fallback
  | some s => if s = "" then fallback else s

/-- `refreshMutation.onSuccess`: success toast when `data.success`,
otherwise an error toast and `reset()`. -/
def refreshOnSuccess (c : Coordinator) (data : ApiResponse) : HandlerOutcome :=
  if data.success then
    ⟨c, [(messageOr data.message "RFID refresh started", .success)], false⟩
  else
    ⟨reset c, [(messageOr data.message "Failed to refresh tray", .error)], false⟩

/-- `refreshMutation.onError`: error toast and `reset()` (and react-query
exposes the error as `refreshError`). -/
def refreshOnError (c : Coordinator) : HandlerOutcome :=
  ⟨reset c, [("Failed to refresh tray", .error)], true⟩

/-- `loadMutation.onSuccess`: logs only — no reset, no toast, regardless of
`data.success`. -/
def loadOnSuccess (c : Coordinator) (_data : ApiResponse) : HandlerOutcome :=
  ⟨c, [], false⟩

/-- `loadMutation.onError`: logs and `reset()`; the error is exposed as
`loadError`. -/
def loadOnError (c : Coordinator) : HandlerOutcome :=
  ⟨reset c, [], true⟩

/-- `unloadMutation.onSuccess`: logs only — no reset, no toast. -/
def unloadOnSuccess (c : Coordinator) (_data : ApiResponse) : HandlerOutcome :=
  ⟨c, [], false⟩

/-- `unloadMutation.onError`: logs and `reset()`; the error is exposed as
`unloadError`. -/
def unloadOnError (c : Coordinator) : HandlerOutcome :=
  ⟨reset c, [], true⟩

end AmsCoordinator

namespace AmsTopology

open AmsCoordinator (AMSUnit AMSTray)

/-- `slotsInUnit` as computed in both scans: `unit.id >= 128 ? 2 : 4`
(AMS-HT has 2 slots). -/
def slotsInUnit (unitId : Nat) : Nat :=
  if unitId ≥ 128 then 2 else 4

/-- The address-to-unit scan shared by `getExtruderIdForTray` and
`getLoadedTrayInfo`: walk `amsUnits` in order and return, for the first
unit with `baseSlotId <= trayId < baseSlotId + slotsInUnit`
(`baseSlotId = unit.id * 4`), the pair `(unit.id, trayId - baseSlotId)`;
`none` when no unit claims the address. -/
def unitSlotFor : List AMSUnit → Nat → Option (Nat × Nat)
  | [], _ => none
  | u :: rest, trayId =>
    if u.id * 4 ≤ trayId ∧ trayId < u.id * 4 + slotsInUnit u.id then
      some (u.id, trayId - u.id * 4)
    else
      unitSlotFor rest trayId

/-- The `for (const unit of amsUnits)` loop of `getExtruderIdForTray`:
return `amsExtruderMap[String(unit.id)]` for the first unit whose slot
range contains `trayId` (the map is modelled as a lookup function to
`Option`). -/
def extruderScan (amsExtruderMap : Nat → Option Nat) :
    List AMSUnit → Nat → Option Nat
  | [], _ => none
  | u :: rest, trayId =>
    if u.id * 4 ≤ trayId ∧ trayId < u.id * 4 + slotsInUnit u.id then
      amsExtruderMap u.id
    else
      extruderScan amsExtruderMap rest trayId

/-- `getExtruderIdForTray(trayId)`: `undefined` unless dual-nozzle,
otherwise the scan above. -/
def getExtruderIdForTray (isDualNozzle : Bool)
    (amsExtruderMap : Nat → Option Nat) (amsUnits : List AMSUnit)
    (trayId : Nat) : Option Nat :=
  if !isDualNozzle then none
  else extruderScan amsExtruderMap amsUnits trayId

/-- The two scans agree: `getExtruderIdForTray`'s loop is the
address-to-unit scan followed by the extruder-map lookup. -/
theorem extruderScan_eq_unitSlotFor (amsExtruderMap : Nat → Option Nat)
    (amsUnits : List AMSUnit) (trayId : Nat) :
    extruderScan amsExtruderMap amsUnits trayId =
      match unitSlotFor amsUnits trayId with
      | none => none
      | some (unitId, _) => amsExtruderMap unitId := by
  induction amsUnits with
  | nil => rfl
  | cons u rest ih =>
    by_cases hc : u.id * 4 ≤ trayId ∧ trayId < u.id * 4 + slotsInUnit u.id
    · simp [extruderScan, unitSlotFor, hc]
    · simp [extruderScan, unitSlotFor, hc, ih]

end AmsTopology

namespace AmsDebounce

/-- The debounce cells of `AMSSectionDual`: `showFilamentChangeCard` (the
visible signal) and `hideTimeoutRef` (`some t` = a hide scheduled to fire at
absolute time `t`). -/
structure DebounceState where
  visible : Bool
  pending : Option Nat
deriving DecidableEq, Repr

/-- One evaluation of the debounce `useEffect` with the current
`shouldShowCard` value at time `now`: when the signal is true, cancel any
pending hide and show the card; when it is false while the card is shown
and no hide is pending, schedule one at `now + 1500`; otherwise leave the
state alone. -/
def debStep (s : DebounceState) (shouldShowCard : Bool) (now : Nat) :
    DebounceState :=
  if shouldShowCard then
    { visible := true, pending := none }
  else if s.visible then
    match s.pending with
    | some _ => s
    | none => { s with pending := some (now + 1500) }
  else s

/-- The hide-timeout callback: `setShowFilamentChangeCard(false)` and clear
the ref. -/
def debFire (_s : DebounceState) : DebounceState :=
  { visible := false, pending := none }

/-- Run the debouncer over a time-ordered list of `(time, shouldShowCard)`
samples, firing a pending hide first whenever its scheduled time has been
reached by the sample's time. -/
def debRun (s : DebounceState) : List (Nat × Bool) → DebounceState
  | [] => s
  | (t, b) :: rest =>
    let s' :=
      match s.pending with
      | some tf => if tf ≤ t then debFire s else s
      | none => s
    debRun (debStep s' b t) rest

/-- The visible signal as observed at time `t` from state `s`, with no
further signal changes: the pending hide fires at its scheduled time. -/
def debVisibleAt (s : DebounceState) (t : Nat) : Bool :=
  match s.pending with
  | some tf => if tf ≤ t then false else s.visible
  | none => s.visible

end AmsDebounce

/-! ## Concrete coordinator instances used by witnesses and counterexamples -/

open AmsCoordinator AmsTopology AmsDebounce

/-- A coordinator busy with a refresh (as after an accepted `startRefresh`). -/
def busyRefreshing : Coordinator :=
  { state := .REFRESHING
    context := some { refreshTarget := some ⟨0, 1⟩, startTime := 0 }
    lastOperationType := none
    prevAmsStatusMain := 0
    refreshInitialData := none
    refreshInitialAmsUpdate := 7
    timer := some 15000 }

/-- A coordinator in the initial idle configuration of the hook. -/
def idleCoordinator : Coordinator :=
  { state := .IDLE
    context := none
    lastOperationType := none
    prevAmsStatusMain := 0
    refreshInitialData := none
    refreshInitialAmsUpdate := 0
    timer := none }

/-! ## C1 — single-flight discipline -/

/-- C1: while the coordinator state is not IDLE, each of `startRefresh`,
`startLoad` and `startUnload` is rejected as operation-in-progress and has
no side effect: the whole hook state (state, context, timer, refs,
`lastOperationType`) is returned unchanged and no command is dispatched. -/
theorem single_flight_reject (c : Coordinator) (h : c.state ≠ .IDLE) :
    (∀ amsId trayId env now,
      startRefresh c amsId trayId env now = ⟨c, .operationInProgress, none⟩) ∧
    (∀ trayId extruderId now,
      startLoad c trayId extruderId now = ⟨c, .operationInProgress, none⟩) ∧
    (∀ now, startUnload c now = ⟨c, .operationInProgress, none⟩) := by
  refine ⟨fun amsId trayId env now => ?_, fun trayId extruderId now => ?_,
    fun now => ?_⟩ <;>
    simp [startRefresh, startLoad, startUnload, h]

/-- Witness for C1 at a concrete busy coordinator. -/
theorem single_flight_reject_witness :
    busyRefreshing.state ≠ .IDLE ∧
    startLoad busyRefreshing 5 none 1234 =
      ⟨busyRefreshing, .operationInProgress, none⟩ :=
  ⟨by decide, (single_flight_reject busyRefreshing (by decide)).2.1 5 none 1234⟩

/-! ## C9 — last-operation-kind memory -/

/-- Counterexample for C9 as stated: an accepted `startRefresh` does not set
`lastOperationType` (it stays `none`), so the value is not "set on every
request operation". -/
theorem lastOperationType_refresh_cex :
    (startRefresh idleCoordinator 0 1 ⟨[], 0, 255, 3⟩ 10).result = .accepted ∧
    (startRefresh idleCoordinator 0 1 ⟨[], 0, 255, 3⟩ 10).coord.lastOperationType
      = none := by
  decide

/-- C9 (amended): `lastOperationType` lives outside the `OperationContext`;
it is set to `load` by an accepted `startLoad` and to `unload` by an
accepted `startUnload`, is left unchanged by `startRefresh`, and is never
cleared by completion or `reset` (which clears state, context, refresh refs
and timer but not this field). -/
theorem lastOperationType_lifecycle (c : Coordinator) (h : c.state = .IDLE) :
    (∀ trayId extruderId now,
      (startLoad c trayId extruderId now).coord.lastOperationType = some .load) ∧
    (∀ now, (startUnload c now).coord.lastOperationType = some .unload) ∧
    (∀ amsId trayId env now,
      (startRefresh c amsId trayId env now).coord.lastOperationType
        = c.lastOperationType) ∧
    (∀ c' : Coordinator, (reset c').lastOperationType = c'.lastOperationType) := by
  refine ⟨fun trayId extruderId now => ?_, fun now => ?_,
    fun amsId trayId env now => ?_, fun c' => ?_⟩ <;>
    simp [startLoad, startUnload, startRefresh, reset, h]

/-- Witness for C9 (amended) at the initial idle coordinator. -/
theorem lastOperationType_lifecycle_witness :
    idleCoordinator.state = .IDLE ∧
    (startLoad idleCoordinator 2 (some 1) 50).coord.lastOperationType
      = some .load :=
  ⟨by decide, (lastOperationType_lifecycle idleCoordinator (by decide)).1 2 (some 1) 50⟩

/-! ## C5 — timeout budgets and finality -/

/-- C5: an accepted refresh arms a 15000 ms timeout and an accepted load or
unload arms a 120000 ms timeout; the timeout callback resets the
coordinator to IDLE, discarding the context and the timer.  Whichever of
detector verdict or timeout fires first is final: `reset` (run by every
completion) clears the pending timer, and once the coordinator is IDLE
every detector effect leaves it unchanged, so neither a second transition
nor a late detector verdict can occur. -/
theorem timeout_budgets_and_finality (c : Coordinator) (h : c.state = .IDLE) :
    (∀ amsId trayId env now,
      (startRefresh c amsId trayId env now).coord.timer = some 15000) ∧
    (∀ trayId extruderId now,
      (startLoad c trayId extruderId now).coord.timer = some 120000) ∧
    (∀ now, (startUnload c now).coord.timer = some 120000) ∧
    (∀ c' : Coordinator,
      (onOperationTimeout c').state = .IDLE ∧
      (onOperationTimeout c').context = none ∧
      (onOperationTimeout c').timer = none) ∧
    (∀ c' : Coordinator, (reset c').timer = none) ∧
    (∀ (c' : Coordinator) env now, c'.state = .IDLE →
      stepRefreshCheck c' env now = c') ∧
    (∀ (c' : Coordinator) trayNow now, c'.state = .IDLE →
      stepLoadTrayNow c' trayNow now = c') ∧
    (∀ (c' : Coordinator) trayNow now, c'.state = .IDLE →
      stepUnloadTrayNow c' trayNow now = c') := by
  refine ⟨fun amsId trayId env now => ?_, fun trayId extruderId now => ?_,
    fun now => ?_, fun c' => ?_, fun c' => ?_,
    fun c' env now h' => ?_, fun c' trayNow now h' => ?_,
    fun c' trayNow now h' => ?_⟩
  · simp [startRefresh, h, REFRESH_TIMEOUT_MS]
  · simp [startLoad, h, FILAMENT_CHANGE_TIMEOUT_MS]
  · simp [startUnload, h, FILAMENT_CHANGE_TIMEOUT_MS]
  · simp [onOperationTimeout, reset]
  · simp [reset]
  · simp [stepRefreshCheck, h']
  · simp [stepLoadTrayNow, h']
  · simp [stepUnloadTrayNow, h']

/-- Witness for C5 at the initial idle coordinator. -/
theorem timeout_budgets_and_finality_witness :
    idleCoordinator.state = .IDLE ∧
    (startRefresh idleCoordinator 0 1 ⟨[], 0, 255, 3⟩ 10).coord.timer
      = some 15000 :=
  ⟨by decide,
    (timeout_budgets_and_finality idleCoordinator (by decide)).1 0 1 ⟨[], 0, 255, 3⟩ 10⟩

/-! ## C6 — error propagation -/

/-- Counterexample for C6 as stated: a request rejected with
operation-in-progress does NOT return the coordinator to IDLE — the busy
state, its context and its timer are all left in place, and nothing is
reported beyond a console log (the whole hook state is unchanged). -/
theorem operationInProgress_not_terminal_cex :
    (startLoad busyRefreshing 5 none 1000).result = .operationInProgress ∧
    (startLoad busyRefreshing 5 none 1000).coord.state = .REFRESHING ∧
    (startLoad busyRefreshing 5 none 1000).coord.state ≠ .IDLE ∧
    (startLoad busyRefreshing 5 none 1000).coord.context ≠ none := by
  decide

/-- C6 (amended): DispatchError (a mutation's `onError`) and Timeout are
terminal for the current operation context — both reset the coordinator to
IDLE discarding the context — and are observable (the refresh dispatch
error additionally emits an error toast, and every dispatch error is
exposed through the mutation's error value); OperationInProgress, by
contrast, rejects the new request while leaving the in-flight operation,
its context, its timer and the coordinator state untouched. -/
theorem error_propagation (c : Coordinator) (h : c.state ≠ .IDLE) :
    ((refreshOnError c).coord.state = .IDLE ∧
     (refreshOnError c).coord.context = none ∧
     (refreshOnError c).toasts = [("Failed to refresh tray", .error)] ∧
     (refreshOnError c).exposedError = true) ∧
    ((loadOnError c).coord.state = .IDLE ∧
     (loadOnError c).coord.context = none ∧
     (loadOnError c).exposedError = true) ∧
    ((unloadOnError c).coord.state = .IDLE ∧
     (unloadOnError c).coord.context = none ∧
     (unloadOnError c).exposedError = true) ∧
    ((onOperationTimeout c).state = .IDLE ∧
     (onOperationTimeout c).context = none) ∧
    (∀ trayId extruderId now,
      startLoad c trayId extruderId now = ⟨c, .operationInProgress, none⟩) ∧
    (∀ now, startUnload c now = ⟨c, .operationInProgress, none⟩) ∧
    (∀ amsId trayId env now,
      startRefresh c amsId trayId env now = ⟨c, .operationInProgress, none⟩) := by
  refine ⟨⟨?_, ?_, ?_, ?_⟩, ⟨?_, ?_, ?_⟩, ⟨?_, ?_, ?_⟩, ⟨?_, ?_⟩,
    fun trayId extruderId now => ?_, fun now => ?_,
    fun amsId trayId env now => ?_⟩ <;>
    simp [refreshOnError, loadOnError, unloadOnError, onOperationTimeout,
      reset, startLoad, startUnload, startRefresh, h]

/-- Witness for C6 (amended) at a concrete busy coordinator. -/
theorem error_propagation_witness :
    busyRefreshing.state ≠ .IDLE ∧
    (refreshOnError busyRefreshing).coord.state = .IDLE :=
  ⟨by decide, (error_propagation busyRefreshing (by decide)).1.1⟩

/-! ## C10 — asymmetric handling of command-sink rejections -/

/-- C10: a load or unload HTTP call that settles without transport error
but with `success = false` in the body changes nothing — no reset, no
toast, no exposed error, the coordinator (and its armed 120000 ms timer)
stays as it was, so the operation runs on until telemetry-detected
completion or timeout; a transport-level `onError` for any of the three
mutations resets the coordinator to IDLE and exposes the error, and for
refresh specifically a `success = false` body also resets and emits an
error toast. -/
theorem mutation_rejection_asymmetry :
    (∀ (c : Coordinator) m, loadOnSuccess c ⟨false, m⟩ = ⟨c, [], false⟩) ∧
    (∀ (c : Coordinator) m, unloadOnSuccess c ⟨false, m⟩ = ⟨c, [], false⟩) ∧
    (∀ c : Coordinator,
      (loadOnError c).coord = reset c ∧ (loadOnError c).coord.state = .IDLE ∧
      (loadOnError c).exposedError = true) ∧
    (∀ c : Coordinator,
      (unloadOnError c).coord = reset c ∧ (unloadOnError c).coord.state = .IDLE ∧
      (unloadOnError c).exposedError = true) ∧
    (∀ c : Coordinator,
      (refreshOnError c).coord = reset c ∧ (refreshOnError c).coord.state = .IDLE) ∧
    (∀ (c : Coordinator) m,
      (refreshOnSuccess c ⟨false, m⟩).coord = reset c ∧
      (refreshOnSuccess c ⟨false, m⟩).coord.state = .IDLE ∧
      (refreshOnSuccess c ⟨false, m⟩).toasts
        = [(messageOr m "Failed to refresh tray", .error)]) := by
  refine ⟨fun c m => ?_, fun c m => ?_, fun c => ⟨?_, ?_, ?_⟩,
    fun c => ⟨?_, ?_, ?_⟩, fun c => ⟨?_, ?_⟩, fun c m => ⟨?_, ?_, ?_⟩⟩ <;>
    simp [loadOnSuccess, unloadOnSuccess, loadOnError, unloadOnError,
      refreshOnError, refreshOnSuccess, reset]

/-! ## C3 — refresh completion detector -/

/-- C3: while REFRESHING a target slot whose tray is present in the current
telemetry snapshot, with a captured initial signature and a
non-decreasing (monotone) update counter, one evaluation of the
refresh-completion effect returns the coordinator to IDLE exactly when
either the tray's current signature differs from the captured one and more
than 1000 ms have elapsed, or the update counter has advanced past the
captured value and more than 8000 ms have elapsed; when the condition holds
the effect performs exactly `reset` (context and timer discarded), and with
neither path satisfied the hook state is completely unchanged (Pending). -/
theorem refresh_detector (c : Coordinator) (env : TelemetryEnv) (now : Nat)
    (ctx : OperationContext) (tgt : RefreshTarget) (tray : AMSTray)
    (sig0 : TraySig)
    (hstate : c.state = .REFRESHING)
    (hctx : c.context = some ctx)
    (htgt : ctx.refreshTarget = some tgt)
    (htray : findTray (findUnit env.amsUnits tgt.amsId) tgt.trayId = some tray)
    (hsig : c.refreshInitialData = some sig0)
    (hmono : c.refreshInitialAmsUpdate ≤ env.lastAmsUpdate) :
    ((stepRefreshCheck c env now).state = .IDLE ↔
      ((traySig tray ≠ sig0 ∧ now - ctx.startTime > 1000) ∨
       (c.refreshInitialAmsUpdate < env.lastAmsUpdate ∧
         now - ctx.startTime > 8000))) ∧
    (((traySig tray ≠ sig0 ∧ now - ctx.startTime > 1000) ∨
      (c.refreshInitialAmsUpdate < env.lastAmsUpdate ∧
        now - ctx.startTime > 8000)) →
      stepRefreshCheck c env now = reset c) ∧
    (¬ ((traySig tray ≠ sig0 ∧ now - ctx.startTime > 1000) ∨
        (c.refreshInitialAmsUpdate < env.lastAmsUpdate ∧
          now - ctx.startTime > 8000)) →
      stepRefreshCheck c env now = c) := by
  obtain ⟨st, octx, lot, prev, rid, riu, tmr⟩ := c
  simp only at hstate hctx hsig hmono
  subst hstate hctx hsig
  obtain ⟨rt, ltt, stt⟩ := ctx
  simp only at htgt
  subst htgt
  simp only [stepRefreshCheck, htray, Option.isSome_some, true_and,
    ne_eq, Option.some.injEq]
  split_ifs with h1 h2
  · have hcond : (¬ traySig tray = sig0 ∧ now - stt > 1000) ∨
        (riu < env.lastAmsUpdate ∧ now - stt > 8000) :=
      Or.inl ⟨fun he => h1.1 he.symm, h1.2⟩
    refine ⟨?_, fun _ => rfl, fun hn => absurd hcond hn⟩
    simpa [reset] using hcond
  · have hcond : (¬ traySig tray = sig0 ∧ now - stt > 1000) ∨
        (riu < env.lastAmsUpdate ∧ now - stt > 8000) := by
      refine Or.inr ⟨?_, h2.2⟩
      have := h2.1
      omega
    refine ⟨?_, fun _ => rfl, fun hn => absurd hcond hn⟩
    simpa [reset] using hcond
  · have hcond : ¬ ((¬ traySig tray = sig0 ∧ now - stt > 1000) ∨
        (riu < env.lastAmsUpdate ∧ now - stt > 8000)) := by
      rintro (⟨hne, ht⟩ | ⟨hlt, ht⟩)
      · exact h1 ⟨fun he => hne he.symm, ht⟩
      · exact h2 ⟨by omega, ht⟩
    refine ⟨?_, fun hc => absurd hc hcond, fun _ => rfl⟩
    simpa using hcond

/-- A coordinator mid-refresh of AMS 0 tray 1, with a captured signature and
captured update counter 7, as left by an accepted `startRefresh` at t=0. -/
def refreshingCoord : Coordinator :=
  { state := .REFRESHING
    context := some { refreshTarget := some ⟨0, 1⟩, startTime := 0 }
    lastOperationType := none
    prevAmsStatusMain := 0
    refreshInitialData := some ⟨some "A0", some "U0", some "PLA", some "FF0000"⟩
    refreshInitialAmsUpdate := 7
    timer := some 15000 }

/-- Telemetry in which AMS 0 tray 1 now carries a different spool signature
(a fast-path refresh completion), with the update counter unchanged. -/
def refreshEnvChanged : TelemetryEnv :=
  { amsUnits := [⟨0, [⟨1, some "A1", some "U1", some "PLA", some "00FF00"⟩]⟩]
    amsStatusMain := 0
    trayNow := 255
    lastAmsUpdate := 7 }

/-- Witness for C3: at 1200 ms elapsed, a changed signature completes the
refresh (coordinator back to IDLE). -/
theorem refresh_detector_witness :
    refreshingCoord.state = .REFRESHING ∧
    (stepRefreshCheck refreshingCoord refreshEnvChanged 1200).state = .IDLE :=
  ⟨rfl,
    (refresh_detector refreshingCoord refreshEnvChanged 1200
      ⟨some ⟨0, 1⟩, none, 0⟩ ⟨0, 1⟩
      ⟨1, some "A1", some "U1", some "PLA", some "00FF00"⟩
      ⟨some "A0", some "U0", some "PLA", some "FF0000"⟩
      rfl rfl rfl (by decide) rfl (by decide)).2.1
      (Or.inl ⟨by decide, by decide⟩) ▸ rfl⟩

/-! ## C4 — load secondary completion (value match, 5000 ms gate) -/

/-- A coordinator loading toward target tray 1, as left by an accepted
`startLoad` at t=1 (a truthy `Date.now()` timestamp). -/
def loadingTargetOne : Coordinator :=
  { state := .LOADING
    context := some { loadTargetTrayId := some 1, startTime := 1 }
    lastOperationType := some .load
    prevAmsStatusMain := 0
    refreshInitialData := none
    refreshInitialAmsUpdate := 0
    timer := some 120000 }

/-- The same coordinator loading toward target tray 0 (AMS 0, slot 0 — a
valid global slot address). -/
def loadingTargetZero : Coordinator :=
  { state := .LOADING
    context := some { loadTargetTrayId := some 0, startTime := 1 }
    lastOperationType := some .load
    prevAmsStatusMain := 0
    refreshInitialData := none
    refreshInitialAmsUpdate := 0
    timer := some 120000 }

/-- C4 failing input: for a nonzero target the secondary detector behaves as
claimed — a matching `trayNow` at 6000 ms elapsed completes (IDLE) and the
same match at 3000 ms elapsed stays Pending (hook state unchanged) — but
for target address 0 a matching `trayNow = 0` at 6000 ms elapsed also stays
Pending: the guard `!context?.loadTargetTrayId` treats the valid tray id 0
as falsy, so the value-match path can never complete a load of slot 0. -/
theorem load_secondary_target_zero_bug :
    (stepLoadTrayNow loadingTargetOne 1 6001).state = .IDLE ∧
    stepLoadTrayNow loadingTargetOne 1 3001 = loadingTargetOne ∧
    stepLoadTrayNow loadingTargetZero 0 6001 = loadingTargetZero ∧
    loadingTargetZero.state = .LOADING := by
  decide

/-! ## C2 — load/unload primary completion (status edge) -/

/-- Whether a value `0` is observed with the immediately preceding observed
value equal to `1`, starting from previous value `p`: the pure content of
the `prevAmsStatusMainRef` edge test. -/
def hasEdge : Nat → List Nat → Bool
  | _, [] => false
  | p, x :: xs => (p == 1 && x == 0) || hasEdge x xs

/-- Once the coordinator is IDLE, further `amsStatusMain` observations only
update the previous-value ref and never change the state. -/
theorem runEdgeObs_of_idle (c : Coordinator) (obs : List Nat)
    (h : c.state = .IDLE) : (runEdgeObs c obs).state = .IDLE := by
  induction obs generalizing c with
  | nil => simpa [runEdgeObs] using h
  | cons x xs ih =>
    have hx : (stepEdge c x).state = .IDLE := by
      simp [stepEdge, h]
    simpa [runEdgeObs] using ih _ hx

/-- Folding the edge effect from a busy (LOADING/UNLOADING) coordinator
reaches IDLE exactly when the observation sequence contains a `0`
immediately preceded by a `1` (counting the pre-existing ref value as the
value preceding the first observation). -/
theorem runEdgeObs_idle_iff (c : Coordinator) (obs : List Nat)
    (h : c.state = .LOADING ∨ c.state = .UNLOADING) :
    ((runEdgeObs c obs).state = .IDLE ↔
      hasEdge c.prevAmsStatusMain obs = true) := by
  induction obs generalizing c with
  | nil =>
    simp only [runEdgeObs, hasEdge, Bool.false_eq_true, iff_false]
    rcases h with h | h <;> simp [h]
  | cons x xs ih =>
    by_cases he : c.prevAmsStatusMain = 1 ∧ x = 0
    · have hstep : stepEdge c x = { reset c with prevAmsStatusMain := x } := by
        simp only [stepEdge, if_pos h, if_pos he]
      have hidle : (runEdgeObs c (x :: xs)).state = .IDLE := by
        rw [runEdgeObs, hstep]
        exact runEdgeObs_of_idle _ _ (by simp [reset])
      rw [iff_true_intro hidle, true_iff]
      simp [hasEdge, he.1, he.2]
    · have hstep : stepEdge c x = { c with prevAmsStatusMain := x } := by
        simp only [stepEdge, if_pos h, if_neg he]
      have h' : ({ c with prevAmsStatusMain := x } : Coordinator).state = .LOADING ∨
          ({ c with prevAmsStatusMain := x } : Coordinator).state = .UNLOADING := h
      rw [runEdgeObs, hstep, ih _ h']
      have hne : (c.prevAmsStatusMain == 1 && x == 0) = false := by
        rcases eq_or_ne c.prevAmsStatusMain 1 with h1 | h1
        · rcases eq_or_ne x 0 with h0 | h0
          · exact absurd ⟨h1, h0⟩ he
          · simp [h0]
        · simp [h1]
      simp [hasEdge, hne]

/-- The consecutive-pair predicate, stated by list positions: `hasEdge p l`
holds exactly when the sequence `p :: l` has a `1` at some index `i` and a
`0` right after it. -/
theorem hasEdge_iff_exists (p : Nat) (l : List Nat) :
    hasEdge p l = true ↔
      ∃ i, (p :: l)[i]? = some 1 ∧ (p :: l)[i + 1]? = some 0 := by
  induction l generalizing p with
  | nil =>
    simp only [hasEdge, Bool.false_eq_true, false_iff]
    rintro ⟨i, h1, h2⟩
    cases i with
    | zero => simp at h2
    | succ j => simp at h1
  | cons x xs ih =>
    constructor
    · intro hE
      simp only [hasEdge, Bool.or_eq_true, Bool.and_eq_true, beq_iff_eq] at hE
      rcases hE with ⟨hp, hx⟩ | hE
      · exact ⟨0, by simp [hp], by simp [hx]⟩
      · obtain ⟨i, h1, h2⟩ := (ih x).mp hE
        exact ⟨i + 1, by simpa using h1, by simpa using h2⟩
    · rintro ⟨i, h1, h2⟩
      cases i with
      | zero =>
        simp only [List.getElem?_cons_zero, Option.some.injEq] at h1
        simp only [List.getElem?_cons_succ, List.getElem?_cons_zero,
          Option.some.injEq] at h2
        simp [hasEdge, h1, h2]
      | succ j =>
        simp only [List.getElem?_cons_succ] at h1 h2
        have := (ih x).mpr ⟨j, h1, by simpa using h2⟩
        simp [hasEdge, this]

/-- A coordinator mid-load toward target 1 with last observed
`amsStatusMain = 0`, as left by an accepted `startLoad` at t=0. -/
def loadingEdgeCoord : Coordinator :=
  { state := .LOADING
    context := some { loadTargetTrayId := some 1, startTime := 0 }
    lastOperationType := some .load
    prevAmsStatusMain := 0
    refreshInitialData := none
    refreshInitialAmsUpdate := 0
    timer := some 120000 }

/-- Counterexample for C2 as stated: on the observation sequence `[1, 2, 0]`
a `1` is observed after start and a `0` strictly later, yet the operation
never completes — the effect only fires when the `0` immediately follows
the `1` in consecutive observations. -/
theorem load_edge_nonadjacent_cex :
    ((0 : Nat) < 2 ∧ ([1, 2, 0] : List Nat)[0]? = some 1 ∧
      ([1, 2, 0] : List Nat)[2]? = some 0) ∧
    (runEdgeObs loadingEdgeCoord [1, 2, 0]).state = .LOADING := by
  refine ⟨⟨by decide, by decide, by decide⟩, by decide⟩

/-- C2 (amended): after an accepted load or unload, the primary path
completes (coordinator back to IDLE) exactly when some observed
`amsStatusMain = 0` is immediately preceded — with the value recorded just
before the start serving as the first previous value — by an observed `1`;
in particular `[0,1,1,0]` completes on the final `0` while `[0,0,0]` never
completes via this path. -/
theorem load_unload_primary_edge (c : Coordinator) (obs : List Nat)
    (h : c.state = .LOADING ∨ c.state = .UNLOADING) :
    ((runEdgeObs c obs).state = .IDLE ↔
      ∃ i, (c.prevAmsStatusMain :: obs)[i]? = some 1 ∧
        (c.prevAmsStatusMain :: obs)[i + 1]? = some 0) :=
  (runEdgeObs_idle_iff c obs h).trans (hasEdge_iff_exists _ _)

/-- Witness for C2 (amended): the spec's sequence `[0,1,1,0]` completes. -/
theorem load_unload_primary_edge_witness :
    (loadingEdgeCoord.state = .LOADING ∨ loadingEdgeCoord.state = .UNLOADING) ∧
    (runEdgeObs loadingEdgeCoord [0, 1, 1, 0]).state = .IDLE :=
  ⟨Or.inl rfl,
    (load_unload_primary_edge loadingEdgeCoord [0, 1, 1, 0] (Or.inl rfl)).mpr
      ⟨3, by decide, by decide⟩⟩

/-! ## C8 — topology round-trip -/

/-- Every unit's slot range spans at most 4 addresses. -/
theorem slotsInUnit_le (unitId : Nat) : slotsInUnit unitId ≤ 4 := by
  unfold slotsInUnit
  split <;> omega

/-- C8: for every known feed unit `u` (2 slots when `u.id ≥ 128`, else 4)
and every slot index `s < slotsInUnit u.id`, the address-to-unit scan maps
the global address `u.id * 4 + s` back to exactly the pair `(u.id, s)` —
regardless of the order of the unit list — and `getExtruderIdForTray` on a
dual-nozzle printer resolves that address to the extruder assigned to
`u.id`; an address claimed by no known unit is mapped to not-found. -/
theorem unit_address_round_trip (units : List AMSUnit) (u : AMSUnit) (s : Nat)
    (hu : u ∈ units) (hs : s < slotsInUnit u.id) :
    unitSlotFor units (u.id * 4 + s) = some (u.id, s) ∧
    (∀ amsExtruderMap : Nat → Option Nat,
      getExtruderIdForTray true amsExtruderMap units (u.id * 4 + s)
        = amsExtruderMap u.id) ∧
    (∀ (vs : List AMSUnit) (a : Nat),
      (∀ v ∈ vs, ¬ (v.id * 4 ≤ a ∧ a < v.id * 4 + slotsInUnit v.id)) →
      unitSlotFor vs a = none) := by
  have main : unitSlotFor units (u.id * 4 + s) = some (u.id, s) := by
    induction units with
    | nil => cases hu
    | cons v rest ih =>
      by_cases hc : v.id * 4 ≤ u.id * 4 + s ∧
          u.id * 4 + s < v.id * 4 + slotsInUnit v.id
      · have hs4 : s < 4 := lt_of_lt_of_le hs (slotsInUnit_le _)
        have hv4 : slotsInUnit v.id ≤ 4 := slotsInUnit_le _
        have hid : v.id = u.id := by omega
        have hoff : u.id * 4 + s - v.id * 4 = s := by omega
        simp [unitSlotFor, hc, hid, hoff]
        intro h
        exact absurd hs (Nat.not_lt.mpr h)
      · have hu' : u ∈ rest := by
          rcases List.mem_cons.mp hu with h | h
          · exfalso
            apply hc
            rw [← h]
            exact ⟨Nat.le_add_right _ _, by omega⟩
          · exact h
        simpa [unitSlotFor, hc] using ih hu'
  refine ⟨main, fun amsExtruderMap => ?_, fun vs a hnone => ?_⟩
  · simp [getExtruderIdForTray, extruderScan_eq_unitSlotFor, main]
  · induction vs with
    | nil => rfl
    | cons v rest ih =>
      have hv := hnone v (List.mem_cons_self v rest)
      simp only [unitSlotFor, if_neg hv]
      exact ih fun w hw => hnone w (List.mem_cons_of_mem v hw)

/-- A unit list with a high-temperature unit (id 129, 2 slots) first and a
regular unit (id 1, 4 slots) second. -/
def topoUnits : List AMSUnit := [⟨129, []⟩, ⟨1, []⟩]

/-- Witness for C8: address `1*4+2 = 6` resolves to unit 1, slot 2, even
though unit 129 is scanned first; address 514 (inside disconnected unit
128's nominal range but past its 2 slots when only unit 129 is known) is
not found. -/
theorem unit_address_round_trip_witness :
    ((⟨1, []⟩ : AMSUnit) ∈ topoUnits ∧ 2 < slotsInUnit 1) ∧
    unitSlotFor topoUnits 6 = some (1, 2) ∧
    unitSlotFor [⟨129, []⟩] 514 = none :=
  ⟨⟨by decide, by decide⟩,
    (unit_address_round_trip topoUnits ⟨1, []⟩ 2 (by decide) (by decide)).1,
    (unit_address_round_trip topoUnits ⟨1, []⟩ 2 (by decide) (by decide)).2.2
      [⟨129, []⟩] 514 (by decide)⟩

/-! ## C7 — presentation debounce (1500 ms delayed-off latch) -/

/-- The initial debounce state (`useState(false)`, no pending hide). -/
def debInit : DebounceState := ⟨false, none⟩

/-- C7: the visible signal is a 1500 ms delayed-off latch.  When the
should-show signal turns false while the card is visible with no hide
pending, the effect keeps the card visible and schedules the single hide at
exactly `now + 1500`, so the observed signal stays true strictly before
that instant and is false from it on; a true signal always cancels any
pending hide and shows the card; the hide callback turns the card off and
clears the schedule, and further false signals while hidden change nothing
(the latch turns off exactly once).  Concretely, the signal toggling
true→false→true within 1500 ms keeps the card continuously visible with no
hide left pending, while turning false and staying false shows the card
until 1500 ms after the falling sample and not at or after it. -/
theorem debounce_delayed_off (s : DebounceState) (t : Nat)
    (hv : s.visible = true) (hp : s.pending = none) :
    (debStep s false t = ⟨true, some (t + 1500)⟩ ∧
     (∀ t', t' < t + 1500 → debVisibleAt (debStep s false t) t' = true) ∧
     (∀ t', t + 1500 ≤ t' → debVisibleAt (debStep s false t) t' = false)) ∧
    (∀ (s' : DebounceState) (u : Nat), debStep s' true u = ⟨true, none⟩) ∧
    (∀ s' : DebounceState, debFire s' = ⟨false, none⟩) ∧
    (∀ (s' : DebounceState) (u : Nat), s'.visible = false → s'.pending = none →
      debStep s' false u = s') ∧
    (debRun debInit [(0, true), (100, false), (1000, true)] = ⟨true, none⟩ ∧
     (debRun debInit [(0, true), (100, false)]).visible = true) ∧
    (debVisibleAt (debRun debInit [(0, true), (100, false)]) 1599 = true ∧
     debVisibleAt (debRun debInit [(0, true), (100, false)]) 1600 = false) := by
  obtain ⟨v, p⟩ := s
  simp only at hv hp
  subst hv hp
  refine ⟨⟨rfl, fun t' ht' => ?_, fun t' ht' => ?_⟩,
    fun s' u => rfl, fun s' => rfl, fun s' u h1 h2 => ?_,
    ⟨by decide, by decide⟩, ⟨by decide, by decide⟩⟩
  · simp [debStep, debVisibleAt]
    omega
  · simp [debStep, debVisibleAt, ht']
  · obtain ⟨v', p'⟩ := s'
    simp only at h1 h2
    subst h1 h2
    rfl

/-- Witness for C7 at the visible, nothing-pending state. -/
theorem debounce_delayed_off_witness :
    ((⟨true, none⟩ : DebounceState).visible = true ∧
      (⟨true, none⟩ : DebounceState).pending = none) ∧
    debStep ⟨true, none⟩ false 200 = ⟨true, some 1700⟩ :=
  ⟨⟨rfl, rfl⟩, (debounce_delayed_off ⟨true, none⟩ 200 rfl rfl).1.1⟩
